import Mathlib

/-!
Verification of the SwarajyaAI backend (src/backend/main.py, src/backend/helper.py).

Python strings are modelled as `List Char`; Python floats (the relevance
scores 10.0, 5.0, 2.0, 0.5 and their sums) are modelled as `ℚ`, which is
exact for these values.  File I/O and the remote Groq call are effects
outside the shallow embedding, so the corresponding functions take the
outcome of the effect (`Except`) as an explicit argument.
-/

namespace SwarajyaAI

/-- Python `str` modelled as a list of characters. -/
abbrev Str := List Char

/-- Python `str.lower()` (character-wise lowering; identity on Devanagari). -/
def lowerStr (s : Str) : Str := s.map Char.toLower

/-- Python `str.strip()`: drop leading and trailing whitespace. -/
def stripStr (s : Str) : Str :=
  ((s.dropWhile Char.isWhitespace).reverse.dropWhile Char.isWhitespace).reverse

/-- Boolean test: `p` is a leading segment of `t`. -/
def isPreB : Str → Str → Bool
  | [], _ => true
  | _ :: _, [] => false
  | a :: p, b :: t => a == b && isPreB p t

/-- Boolean test for Python `p in t`: `p` occurs contiguously inside `t`. -/
def isSubB (p : Str) : Str → Bool
  | [] => p.isEmpty
  | c :: t => isPreB p (c :: t) || isSubB p t

/-- Python `str.split()` with no separator: split on runs of whitespace,
returning no empty tokens.  `acc` holds the current token reversed. -/
def splitWsAux : Str → Str → List Str
  | [], acc => if acc.isEmpty then [] else [acc.reverse]
  | c :: cs, acc =>
    if c.isWhitespace then
      if acc.isEmpty then splitWsAux cs [] else acc.reverse :: splitWsAux cs []
    else splitWsAux cs (c :: acc)

/-- Python `str.split()` with no separator. -/
def splitWs (s : Str) : List Str := splitWsAux s []

/-- Python `' '.join(xs)`. -/
def joinSpace (xs : List Str) : Str := List.intercalate [' '] xs

/-- A scheme record as stored in `schemes_database.json`:
`{title, description, link, keywords[]}`. -/
structure Scheme where
  title : Str
  description : Str
  link : Str
  keywords : List Str
deriving DecidableEq, Repr

/-- The catalog: mapping category name → ordered list of schemes
(`CURATED_SCHEMES_DB`, iterated in insertion order). -/
abbrev Catalog := List (Str × List Scheme)

/-- `main.SchemeResult` (pydantic model). -/
structure SchemeResult where
  title : Str
  description : Str
  link : Str
deriving DecidableEq, Repr

/-- `main.SearchResponse` (pydantic model). -/
structure SearchResponse where
  results : List SchemeResult
  total_found : ℕ
  search_query : Str
deriving DecidableEq, Repr

/-- `SEARCH_CONFIG["max_results"]`. -/
def max_results : ℕ := 10

/-- `SEARCH_CONFIG["min_query_length"]`. -/
def min_query_length : ℕ := 2

/-- `(scheme['title'] + ' ' + scheme['description'] + ' ' +
' '.join(scheme['keywords'])).lower()` from `calculate_relevance_score`. -/
def searchableText (s : Scheme) : Str :=
  lowerStr (s.title ++ [' '] ++ s.description ++ [' '] ++ joinSpace s.keywords)

/-- The body of the `for word in query_words` loop of
`main.calculate_relevance_score`: the contribution of one query word,
first matching tier wins (`if`/`elif` chain in the source). -/
def wordScore (s : Scheme) (word : Str) : ℚ :=
  if word.length < 2 then 0
  else if word ∈ s.keywords.map lowerStr then 10
  else if isSubB word (lowerStr s.title) then 5
  else if isSubB word (lowerStr s.description) then 2
  else if (splitWs (searchableText s)).any (fun t => isSubB word t) then 1/2
  else 0

/-- `main.calculate_relevance_score`: `score` starts at `0.0` and the loop
adds each word's contribution. -/
def calculate_relevance_score (s : Scheme) (query_words : List Str) : ℚ :=
  query_words.foldl (fun acc w => acc + wordScore s w) 0

/-- The sort key relation of
`matching_schemes.sort(key=lambda x: x['score'], reverse=True)`:
`a` may come no later than `b` when `b`'s score is at most `a`'s. -/
def scoreGE (a b : Scheme × ℚ) : Prop := b.2 ≤ a.2

instance : DecidableRel scoreGE := fun a b => inferInstanceAs (Decidable (b.2 ≤ a.2))

instance : IsTotal (Scheme × ℚ) scoreGE := ⟨fun a b => le_total b.2 a.2⟩

instance : IsTrans (Scheme × ℚ) scoreGE := ⟨fun _ _ _ hab hbc => le_trans hbc hab⟩

/-- Python `list.sort(key=..., reverse=True)` is a stable non-increasing
sort; a stable sort w.r.t. a total preorder is unique, so insertion sort
with `scoreGE` computes exactly the same list. -/
def sortDesc (l : List (Scheme × ℚ)) : List (Scheme × ℚ) := l.insertionSort scoreGE

/-- `query_words = query.lower().strip().split()` from
`main.search_government_schemes`. -/
def queryWords (query : Str) : List Str := splitWs (stripStr (lowerStr query))

/-- The `matching_schemes` list built by `main.search_government_schemes`:
iterate every scheme of every category in catalog order, score it, and keep
the pairs with score `> 0`. -/
def scoredMatches (db : Catalog) (query : Str) : List (Scheme × ℚ) :=
  ((db.flatMap Prod.snd).map
    (fun s => (s, calculate_relevance_score s (queryWords query)))).filter
    (fun m => 0 < m.2)

/-- `matching_schemes` after the in-place stable descending sort. -/
def rankedMatches (db : Catalog) (query : Str) : List (Scheme × ℚ) :=
  sortDesc (scoredMatches db query)

/-- `main.search_government_schemes`: guard on short queries, score, sort,
truncate to `max_results`, and build the response with
`total_found=len(results)` exactly as the source does. -/
def search_government_schemes (db : Catalog) (query : Str) : SearchResponse :=
  if query.isEmpty || (stripStr query).length < min_query_length then
    ⟨[], 0, query⟩
  else
    let results := ((rankedMatches db query).take max_results).map
      (fun m => SchemeResult.mk m.1.title m.1.description m.1.link)
    ⟨results, results.length, query⟩

/-- The `try` body of the `POST /search` handler `main.search_schemes`:
an empty (after trim) query raises `HTTPException(400)`, otherwise the
search result is returned. -/
def search_schemes_body (db : Catalog) (query : Str) : Except ℕ SearchResponse :=
  if query.isEmpty || (stripStr query).isEmpty then .error 400
  else .ok (search_government_schemes db query)

/-- The `POST /search` handler `main.search_schemes`: `HTTPException` is a
subclass of `Exception`, so the 400 raised in the `try` body is caught by
the broad `except Exception` clause and re-raised as
`HTTPException(500, "Internal server error during search")`. -/
def search_schemes (db : Catalog) (query : Str) : Except ℕ SearchResponse :=
  match search_schemes_body db query with
  | .error _ => .error 500
  | .ok r => .ok r

/-- The ways `main.load_schemes_database` can fail to produce
`data['schemes']`: each `except` arm of the source. -/
inductive LoadError where
  | fileNotFound
  | jsonDecodeError
  | otherError
deriving DecidableEq, Repr

/-- `main.load_schemes_database`: reading and parsing
`schemes_database.json` is an external effect, modelled by its outcome;
every failure arm returns the empty dict `{}`. -/
def load_schemes_database : Except LoadError Catalog → Catalog
  | .ok schemes => schemes
  | .error _ => []

/-- `sum(len(schemes) for schemes in CURATED_SCHEMES_DB.values())`, the
`total_schemes` field reported by the `GET /` and `GET /schemes` handlers. -/
def totalSchemes (db : Catalog) : ℕ := (db.map (fun p => p.2.length)).sum

/-- `" योजना आपके लिए उपलब्ध है। "` appended after the title in
`GroqHelper._get_fallback_response`. -/
def fallback_head : Str := " योजना आपके लिए उपलब्ध है। ".data

/-- `"इस योजना के तहत "` from `GroqHelper._get_fallback_response`. -/
def fallback_desc_pre : Str := "इस योजना के तहत ".data

/-- `"... "` appended after the truncated description. -/
def fallback_desc_post : Str := "... ".data

/-- The two fixed closing sentences of `GroqHelper._get_fallback_response`. -/
def fallback_cta : Str :=
  "आवेदन करने के लिए दिए गए लिंक पर जाएं या अपने नजदीकी सरकारी कार्यालय में संपर्क करें। ".data
  ++ "अधिक जानकारी के लिए आधिकारिक वेबसाइट देखें।".data

/-- `GroqHelper._get_fallback_response(scheme, user_query)`: title sentence,
then (when the description is truthy, i.e. non-empty) the first 150
characters of the description, then the fixed guidance sentences.  The
`user_query` argument is unused in the source. -/
def get_fallback_response (s : Scheme) (user_query : Str) : Str :=
  (s.title ++ fallback_head)
  ++ (if s.description.isEmpty then []
      else fallback_desc_pre ++ s.description.take 150 ++ fallback_desc_post)
  ++ fallback_cta

/-- Failure modes of the remote Groq chat-completion call, per the broad
`except Exception` of `GroqHelper.generate_hindi_response`. -/
inductive RemoteError where
  | timeout
  | authError
  | malformedResponse
  | providerError
deriving DecidableEq, Repr

/-- `GroqHelper.generate_hindi_response(scheme, user_query)`: the remote
chat-completion call is an external effect, modelled by its outcome.
`none` models `self.client is None` (`is_available()` false); `some
(.error e)` models any exception raised by the call (caught by the broad
`except`); `some (.ok text)` models a successful call, whose content the
source returns `.strip()`-ped. -/
def generate_hindi_response (remote : Option (Except RemoteError Str))
    (s : Scheme) (user_query : Str) : Str :=
  match remote with
  | none => get_fallback_response s user_query
  | some (.error _) => get_fallback_response s user_query
  | some (.ok text) => stripStr text

/-- The dictionary key `"no_results"`. -/
def no_results_key : Str := "no_results".data

/-- The dictionary key `"invalid_query"`. -/
def invalid_query_key : Str := "invalid_query".data

/-- The dictionary key `"server_error"`. -/
def server_error_key : Str := "server_error".data

/-- The `no_results` entry of `error_responses` in
`GroqHelper.generate_error_response` (an f-string embedding the query). -/
def no_results_message (q : Str) : Str :=
  '\x27' :: (q ++ "\x27 के लिए कोई सरकारी योजना नहीं मिली। कृपया अलग शब्दों में खोजें जैसे \x27घर\x27, \x27नौकरी\x27, \x27शिक्षा\x27, \x27स्वास्थ्य\x27, या \x27किसान\x27।".data)

/-- The `server_error` entry of `error_responses`. -/
def server_error_message : Str :=
  "सरकारी योजनाओं की जानकारी लेने में कुछ समस्या हो रही है। कृपया कुछ देर बाद कोशिश करें।".data

/-- The `invalid_query` entry of `error_responses`. -/
def invalid_query_message : Str :=
  "कृपया अपना सवाल स्पष्ट रूप से पूछें। उदाहरण: \x27घर बनाने की योजना\x27 या \x27नौकरी की योजना\x27।".data

/-- `GroqHelper.generate_error_response(query, error_type)`:
`error_responses.get(error_type, error_responses["server_error"])`. -/
def generate_error_response (q error_type : Str) : Str :=
  if error_type = no_results_key then no_results_message q
  else if error_type = server_error_key then server_error_message
  else if error_type = invalid_query_key then invalid_query_message
  else server_error_message

/-- Per-word contribution exactly as the specification words it, for
comparison with `wordScore` (the code): tier 1 is *case-insensitive
equality* with a keyword, and tier 4 tokenizes the concatenation of title,
description and keywords *without* lower-casing it. -/
def specTierContribution (s : Scheme) (word : Str) : ℚ :=
  if word.length < 2 then 0
  else if s.keywords.any (fun kw => lowerStr word == lowerStr kw) then 10
  else if isSubB word (lowerStr s.title) then 5
  else if isSubB word (lowerStr s.description) then 2
  else if (splitWs (s.title ++ [' '] ++ s.description ++ [' '] ++ joinSpace s.keywords)).any
      (fun t => isSubB word t) then 1/2
  else 0

/-- Per-word contribution as the amended claim words it: tier 1 is equality
with the *lower-cased form* of a keyword, and tier 4 tokenizes the
*lower-cased* concatenation of title, description and keywords. -/
def specTierContributionAmended (s : Scheme) (word : Str) : ℚ :=
  if word.length < 2 then 0
  else if s.keywords.any (fun kw => word == lowerStr kw) then 10
  else if isSubB word (lowerStr s.title) then 5
  else if isSubB word (lowerStr s.description) then 2
  else if (splitWs (lowerStr (s.title ++ [' '] ++ s.description ++ [' '] ++ joinSpace s.keywords))).any
      (fun t => isSubB word t) then 1/2
  else 0

/-- Record with keywords `["aa", "Kisan"]`, exercising both divergences of
the claim wording: query word `"AA"` (case-insensitively equal to keyword
`"aa"` but not equal to its lower-cased form) and query word `"kis"`
(substring of the lowered token `"kisan"` but not of the raw token
`"Kisan"`). -/
def schemeC1 : Scheme := ⟨[], [], [], ["aa".data, "Kisan".data]⟩

/-- Record whose single keyword `"aa"` matches the query `"aa"` exactly. -/
def schemeC2 : Scheme := ⟨[], [], [], ["aa".data]⟩

/-- Catalog with one category holding eleven copies of `schemeC2`, so the
query `"aa"` yields eleven positive matches — one more than `max_results`. -/
def dbC2 : Catalog := [("c".data, List.replicate 11 schemeC2)]

/-- Record with a non-empty `link`, no description and no keywords. -/
def schemeC4 : Scheme := ⟨"X".data, [], "https://a.in".data, []⟩

/-- Record whose only keyword is the single character `"a"`. -/
def schemeC7 : Scheme := ⟨[], [], [], [['a']]⟩

/-- Record with the two-character keyword `"aa"`. -/
def schemeC7w : Scheme := ⟨"T".data, [], "https://t.in".data, ["aa".data]⟩

/-- The query string `"aa"`. -/
def qAA : Str := "aa".data

/-- The query string `"a"`. -/
def qA : Str := "a".data

/-- The query string `"घर"`. -/
def qGhar : Str := "घर".data

/-- An error-reason string that the error-response table does not know. -/
def etWeird : Str := "weird".data

/-! ### Helper lemmas -/

lemma isPreB_self_append : ∀ (p r : Str), isPreB p (p ++ r) = true
  | [], _ => rfl
  | a :: p, r => by simp [isPreB, isPreB_self_append p r]

lemma isSubB_of_isPreB : ∀ {p t : Str}, isPreB p t = true → isSubB p t = true
  | [], [], _ => rfl
  | _ :: _, [], h => by cases h
  | p, _ :: _, h => by simp [isSubB, h]

lemma isSubB_self_append (p r : Str) : isSubB p (p ++ r) = true :=
  isSubB_of_isPreB (isPreB_self_append p r)

lemma isSubB_cons (c : Char) {p t : Str} (h : isSubB p t = true) :
    isSubB p (c :: t) = true := by
  simp [isSubB, h]

lemma isSubB_append_left : ∀ (l : Str) {p t : Str},
    isSubB p t = true → isSubB p (l ++ t) = true
  | [], _, _, h => h
  | c :: l, _, _, h => isSubB_cons c (isSubB_append_left l h)

lemma isSubB_suffix (l p : Str) : isSubB p (l ++ p) = true :=
  isSubB_append_left l (by simpa using isSubB_self_append p [])

lemma foldl_add_wordScore (s : Scheme) :
    ∀ (qw : List Str) (c : ℚ),
      qw.foldl (fun acc w => acc + wordScore s w) c = c + (qw.map (wordScore s)).sum
  | [], c => by simp
  | w :: qw, c => by
    simp [List.foldl_cons, foldl_add_wordScore s qw, add_assoc]

lemma calculate_eq_sum (s : Scheme) (qw : List Str) :
    calculate_relevance_score s qw = (qw.map (wordScore s)).sum := by
  unfold calculate_relevance_score
  rw [foldl_add_wordScore, zero_add]

lemma wordScore_nonneg (s : Scheme) (w : Str) : 0 ≤ wordScore s w := by
  unfold wordScore
  repeat' split
  all_goals norm_num

lemma wordScore_eq_specAmended (s : Scheme) (w : Str) :
    wordScore s w = specTierContributionAmended s w := by
  have hkw : ((s.keywords.any fun kw => w == lowerStr kw) = true)
      ↔ w ∈ s.keywords.map lowerStr := by
    simp only [List.any_eq_true, beq_iff_eq, List.mem_map]
    exact ⟨fun ⟨kw, ha, hb⟩ => ⟨kw, ha, hb.symm⟩, fun ⟨kw, ha, hb⟩ => ⟨kw, ha, hb.symm⟩⟩
  unfold wordScore specTierContributionAmended searchableText
  by_cases h1 : w.length < 2
  · simp [h1]
  · by_cases h2 : w ∈ List.map lowerStr s.keywords
    · simp [h1, h2, hkw.mpr h2]
    · have h2' : ¬ ((s.keywords.any fun kw => w == lowerStr kw) = true) :=
        fun hh => h2 (hkw.mp hh)
      simp [h1, h2, h2']

lemma stripStr_nil : stripStr [] = [] := rfl

lemma guard_false (q : Str) (h : min_query_length ≤ (stripStr q).length) :
    (q.isEmpty || decide ((stripStr q).length < min_query_length)) = false := by
  have h2 : ¬ ((stripStr q).length < min_query_length) := Nat.not_lt.mpr h
  have h1 : q.isEmpty = false := by
    cases q with
    | nil => simp [stripStr, min_query_length] at h
    | cons a t => rfl
  simp [h1, h2]

lemma length_sortDesc (l : List (Scheme × ℚ)) : (sortDesc l).length = l.length :=
  (List.perm_insertionSort scoreGE l).length_eq

lemma pairwise_sortDesc (l : List (Scheme × ℚ)) :
    (sortDesc l).Pairwise scoreGE :=
  List.sorted_insertionSort scoreGE l

lemma search_total_eq_results_length (db : Catalog) (q : Str) :
    (search_government_schemes db q).total_found
      = (search_government_schemes db q).results.length := by
  unfold search_government_schemes
  split <;> rfl

lemma search_results_length (db : Catalog) (q : Str)
    (h : min_query_length ≤ (stripStr q).length) :
    (search_government_schemes db q).results.length
      = min max_results (scoredMatches db q).length := by
  simp only [search_government_schemes, guard_false q h, Bool.false_eq_true,
    if_false, List.length_map, List.length_take]
  rw [rankedMatches, length_sortDesc]

lemma filter_replicate_pos {x : Scheme × ℚ} {p : Scheme × ℚ → Bool}
    (hp : p x = true) : ∀ n : ℕ, (List.replicate n x).filter p = List.replicate n x
  | 0 => rfl
  | n + 1 => by
    simp [List.replicate_succ, List.filter_cons, hp, filter_replicate_pos hp n]

lemma filter_score_orderedInsert (c : ℚ) (a : Scheme × ℚ) :
    ∀ l : List (Scheme × ℚ),
      (l.orderedInsert scoreGE a).filter (fun m => decide (m.2 = c))
        = ((a :: l).filter (fun m => decide (m.2 = c)))
  | [] => rfl
  | b :: t => by
    by_cases hab : scoreGE a b
    · simp [List.orderedInsert, hab]
    · have hlt : a.2 < b.2 := lt_of_not_le hab
      by_cases hpa : a.2 = c
      · have hpb : ¬ (b.2 = c) := by
          intro hb
          rw [hpa, hb] at hlt
          exact absurd hlt (lt_irrefl c)
        simp [List.orderedInsert, hab, List.filter_cons, hpa, hpb,
          filter_score_orderedInsert c a t]
      · simp [List.orderedInsert, hab, List.filter_cons, hpa,
          filter_score_orderedInsert c a t]

lemma filter_score_sortDesc (c : ℚ) :
    ∀ l : List (Scheme × ℚ),
      (sortDesc l).filter (fun m => decide (m.2 = c))
        = l.filter (fun m => decide (m.2 = c))
  | [] => rfl
  | x :: xs => by
    show ((sortDesc xs).orderedInsert scoreGE x).filter _ = _
    rw [filter_score_orderedInsert]
    simp [List.filter_cons, filter_score_sortDesc c xs]

lemma ne_of_headq {l m : Str} (h : l.head? ≠ m.head?) : l ≠ m :=
  fun e => h (by rw [e])

/-! ### Claim theorems -/

/-- C1 (counterexample): the relevance score is NOT the sum of the
per-word contributions as the claim words them.  On the record with
keywords `["aa", "Kisan"]` and query words `["AA", "kis"]` the code scores
`0.5` (the tier-1 test compares the word with the lower-cased keywords, so
`"AA"` misses, and the tier-4 tokens come from the lower-cased
concatenation, so `"kis"` hits token `"kisan"`), while the claim's
case-insensitive tier 1 gives `"AA"` 10.0 and its un-lowered tier 4 gives
`"kis"` 0.0. -/
theorem score_tiers_spec_counterexample :
    ¬ (calculate_relevance_score schemeC1 ["AA".data, "kis".data]
        = (["AA".data, "kis".data].map (specTierContribution schemeC1)).sum) := by
  have h1 : calculate_relevance_score schemeC1 ["AA".data, "kis".data]
      = 0 + 0 + 1 / 2 := rfl
  have h2 : (["AA".data, "kis".data].map (specTierContribution schemeC1)).sum
      = 10 + (0 + 0) := rfl
  rw [h1, h2]
  norm_num

/-- C1 (amended): for every scheme record and list of query words, the
relevance score equals the sum over the query words of a per-word
contribution determined by the first matching tier only: a word of length
< 2 contributes 0.0; otherwise if the word equals the lower-cased form of
one of the record's keywords it contributes 10.0; else if it is a
substring of the lower-cased title, 5.0; else if a substring of the
lower-cased description, 2.0; else if a substring of some
whitespace-delimited token of the lower-cased concatenation of title,
description and keywords, 0.5; else 0.0. -/
theorem score_eq_sum_of_tier_contributions :
    ∀ (s : Scheme) (qw : List Str),
      calculate_relevance_score s qw = (qw.map (specTierContributionAmended s)).sum := by
  intro s qw
  rw [calculate_eq_sum]
  have h : wordScore s = specTierContributionAmended s :=
    funext (wordScore_eq_specAmended s)
  rw [h]

/-- C2 (counterexample): with eleven records matching the query `"aa"`,
`total_found` is 10 — the length of the truncated result list — and not
the pre-truncation match count 11 that the claim asserts. -/
theorem total_found_pretruncation_counterexample :
    (search_government_schemes dbC2 qAA).total_found = 10
    ∧ (scoredMatches dbC2 qAA).length = 11
    ∧ ¬ ((search_government_schemes dbC2 qAA).total_found
        = (scoredMatches dbC2 qAA).length) := by
  have hsc : calculate_relevance_score schemeC2 (queryWords qAA) = 0 + 10 := rfl
  have hpos : 0 < calculate_relevance_score schemeC2 (queryWords qAA) := by
    rw [hsc]; norm_num
  have hmatch : scoredMatches dbC2 qAA
      = List.replicate 11
          (schemeC2, calculate_relevance_score schemeC2 (queryWords qAA)) := by
    unfold scoredMatches dbC2
    rw [show ([(("c".data : Str), List.replicate 11 schemeC2)] : Catalog).flatMap Prod.snd
        = List.replicate 11 schemeC2 by simp]
    rw [List.map_replicate]
    exact filter_replicate_pos (by simp [hpos]) 11
  have hlen : (scoredMatches dbC2 qAA).length = 11 := by rw [hmatch]; simp
  have hstrip : min_query_length ≤ (stripStr qAA).length := by decide
  have htf : (search_government_schemes dbC2 qAA).total_found = 10 := by
    rw [search_total_eq_results_length, search_results_length dbC2 _ hstrip, hlen]
    rfl
  exact ⟨htf, hlen, by rw [htf, hlen]; decide⟩

/-- C2 (amended): for every catalog and every query of at least the
minimum length after trimming, `total_found` equals the length of the
truncated result list, i.e. `min max_results (number of positive
matches)`; with more than `max_results` matches it is `max_results`, not
the pre-truncation count. -/
theorem total_found_eq_truncated_length (db : Catalog) (q : Str)
    (h : min_query_length ≤ (stripStr q).length) :
    (search_government_schemes db q).total_found
      = (search_government_schemes db q).results.length
    ∧ (search_government_schemes db q).total_found
      = min max_results (scoredMatches db q).length :=
  ⟨search_total_eq_results_length db q,
   by rw [search_total_eq_results_length, search_results_length db q h]⟩

/-- C2 witness: the amended claim instantiated on the eleven-match catalog. -/
theorem total_found_eq_truncated_length_witness :
    min_query_length ≤ (stripStr qAA).length
    ∧ ((search_government_schemes dbC2 qAA).total_found
        = (search_government_schemes dbC2 qAA).results.length
      ∧ (search_government_schemes dbC2 qAA).total_found
        = min max_results (scoredMatches dbC2 qAA).length) :=
  ⟨by decide, total_found_eq_truncated_length dbC2 qAA (by decide)⟩

/-- C3 (counterexample): the `POST /search` endpoint answers the empty
query with an error (`HTTPException(400)` re-wrapped by the broad `except`
into a 500), not with `results: []` as the claim asserts. -/
theorem empty_query_endpoint_counterexample :
    search_schemes [] ([] : Str) = Except.error 500
    ∧ ¬ ∃ resp : SearchResponse, search_schemes [] ([] : Str) = Except.ok resp := by
  refine ⟨rfl, ?_⟩
  rintro ⟨resp, hresp⟩
  rw [show search_schemes [] ([] : Str) = Except.error 500 from rfl] at hresp
  exact Except.noConfusion hresp

/-- C3 (amended): for every query shorter than the minimum length after
trimming, the search operation returns an empty result list with
`total_found = 0` and raises no error; the `POST /search` endpoint answers
such a query with `results: []` when the trimmed query is non-empty, but
rejects an empty (after trim) query with an error response. -/
theorem short_query_returns_empty (db : Catalog) (q : Str)
    (h : (stripStr q).length < min_query_length) :
    search_government_schemes db q = ⟨[], 0, q⟩
    ∧ (stripStr q = [] → search_schemes db q = Except.error 500)
    ∧ (stripStr q ≠ [] → search_schemes db q = Except.ok ⟨[], 0, q⟩) := by
  have hsearch : search_government_schemes db q = ⟨[], 0, q⟩ := by
    simp [search_government_schemes, h]
  refine ⟨hsearch, ?_, ?_⟩
  · intro hs
    simp [search_schemes, search_schemes_body, hs]
  · intro hs
    have hq : q.isEmpty = false := by
      cases q with
      | nil => exact absurd stripStr_nil hs
      | cons a t => rfl
    have hse : (stripStr q).isEmpty = false := by
      cases hstrip : stripStr q with
      | nil => exact absurd hstrip hs
      | cons a t => rfl
    simp [search_schemes, search_schemes_body, hq, hse, hsearch]

/-- C3 witness: the amended claim instantiated at the one-character query
`"a"` on the empty catalog. -/
theorem short_query_returns_empty_witness :
    (stripStr qA).length < min_query_length
    ∧ (search_government_schemes [] qA = ⟨[], 0, qA⟩
      ∧ (stripStr qA = [] → search_schemes [] qA = Except.error 500)
      ∧ (stripStr qA ≠ [] →
          search_schemes [] qA = Except.ok ⟨[], 0, qA⟩)) :=
  ⟨by decide, short_query_returns_empty [] qA (by decide)⟩

/-- C4 (counterexample): the deterministic fallback string does NOT
contain the scheme's link: on a record with link `"https://a.in"` the
fallback output never mentions the link, it only tells the user to follow
"the given link". -/
theorem fallback_link_counterexample :
    ¬ (isSubB schemeC4.link (get_fallback_response schemeC4 []) = true) := by
  decide

/-- C4 (amended): the fallback composition is deterministic — it depends
only on the scheme (not even on the query), so two runs on the same inputs
coincide — and its output always contains the scheme's title and the fixed
closing guidance sentences as substrings; it does not in general contain
the scheme's link field. -/
theorem fallback_deterministic_and_fixed_text :
    ∀ (s : Scheme) (q q' : Str),
      get_fallback_response s q = get_fallback_response s q'
      ∧ isSubB s.title (get_fallback_response s q) = true
      ∧ isSubB fallback_cta (get_fallback_response s q) = true := by
  intro s q q'
  refine ⟨rfl, ?_, ?_⟩
  · have h : get_fallback_response s q
        = s.title ++ (fallback_head
          ++ ((if s.description.isEmpty then []
              else fallback_desc_pre ++ s.description.take 150 ++ fallback_desc_post)
            ++ fallback_cta)) := by
      simp [get_fallback_response, List.append_assoc]
    rw [h]
    exact isSubB_self_append _ _
  · have h : get_fallback_response s q
        = (s.title ++ fallback_head
          ++ (if s.description.isEmpty then []
              else fallback_desc_pre ++ s.description.take 150 ++ fallback_desc_post))
          ++ fallback_cta := by
      simp [get_fallback_response, List.append_assoc]
    rw [h]
    exact isSubB_suffix _ _

/-- C5: for every catalog and query, the ranked match list underlying the
returned results is sorted non-increasing by score (here stated on the
truncated list actually returned), and for every score value the matches
holding it appear in exactly the catalog iteration order (`scoredMatches`
enumerates the catalog in order, and filtering the sorted list to any one
score value gives the same sublist — the stable-sort property). -/
theorem ranking_sorted_and_stable :
    ∀ (db : Catalog) (q : Str) (c : ℚ),
      ((rankedMatches db q).take max_results).Pairwise scoreGE
      ∧ (rankedMatches db q).filter (fun m => decide (m.2 = c))
        = (scoredMatches db q).filter (fun m => decide (m.2 = c)) :=
  fun _ _ c =>
    ⟨List.Pairwise.sublist (List.take_sublist _ _) (pairwise_sortDesc _),
     filter_score_sortDesc c _⟩

/-- C6: appending one more query word never decreases the relevance score:
the added word's tier contribution is non-negative and words are scored
independently. -/
theorem score_monotone_append :
    ∀ (s : Scheme) (qw : List Str) (w : Str),
      calculate_relevance_score s qw ≤ calculate_relevance_score s (qw ++ [w]) := by
  intro s qw w
  have h : calculate_relevance_score s (qw ++ [w])
      = calculate_relevance_score s qw + wordScore s w := by
    unfold calculate_relevance_score
    rw [List.foldl_append]
    rfl
  rw [h]
  have hw := wordScore_nonneg s w
  linarith

/-- C7 (counterexample): a record whose keyword is the single character
`"a"` scores 0 on the query consisting solely of that keyword, because
words shorter than 2 characters are skipped — the claim's strict
positivity fails. -/
theorem single_char_keyword_counterexample :
    ¬ (0 < calculate_relevance_score schemeC7 [lowerStr ['a']]) := by
  have h : calculate_relevance_score schemeC7 [lowerStr ['a']] = 0 + 0 := rfl
  rw [h]
  norm_num

/-- C7 (amended): for every scheme record and every keyword of that record
of length at least 2, the query consisting solely of that keyword (as the
search tokenizer delivers it: lower-cased) yields a strictly positive
relevance score for that record. -/
theorem keyword_query_positive_score (s : Scheme) (kw : Str)
    (hmem : kw ∈ s.keywords) (hlen : 2 ≤ kw.length) :
    0 < calculate_relevance_score s [lowerStr kw] := by
  have hc : calculate_relevance_score s [lowerStr kw]
      = 0 + wordScore s (lowerStr kw) := rfl
  have hws : wordScore s (lowerStr kw) = 10 := by
    have h1 : ¬ ((lowerStr kw).length < 2) := by
      simp only [lowerStr, List.length_map]
      omega
    have h2 : lowerStr kw ∈ s.keywords.map lowerStr :=
      List.mem_map.mpr ⟨kw, hmem, rfl⟩
    unfold wordScore
    rw [if_neg h1, if_pos h2]
  rw [hc, hws]
  norm_num

/-- C7 witness: the amended claim instantiated on a record with keyword
`"aa"`. -/
theorem keyword_query_positive_score_witness :
    (qAA ∈ schemeC7w.keywords ∧ 2 ≤ qAA.length)
    ∧ 0 < calculate_relevance_score schemeC7w [lowerStr qAA] :=
  ⟨⟨by decide, by decide⟩,
   keyword_query_positive_score schemeC7w qAA (by decide) (by decide)⟩

/-- C8: when loading the catalog file fails in any way (missing file,
malformed JSON, any other error), the loader yields the empty catalog
instead of raising, the service reports zero total schemes, and every
subsequent search returns an empty result list with `total_found = 0`
without raising. -/
theorem missing_catalog_degrades_gracefully :
    ∀ (e : LoadError) (q : Str),
      load_schemes_database (Except.error e) = []
      ∧ totalSchemes (load_schemes_database (Except.error e)) = 0
      ∧ search_government_schemes (load_schemes_database (Except.error e)) q
          = ⟨[], 0, q⟩ := by
  intro e q
  refine ⟨rfl, rfl, ?_⟩
  show search_government_schemes [] q = ⟨[], 0, q⟩
  unfold search_government_schemes
  split
  · rfl
  · rfl

/-- C9: if the remote text-generation call fails with any exception the
response generator returns the deterministic fallback for that scheme
(the exception is caught, never propagated — the function is total and
returns a plain string); when the provider client is not configured the
fallback is returned directly; on success the provider text is returned
trimmed. -/
theorem remote_failure_masked_by_fallback :
    ∀ (s : Scheme) (q : Str) (e : RemoteError) (text : Str),
      generate_hindi_response none s q = get_fallback_response s q
      ∧ generate_hindi_response (some (Except.error e)) s q = get_fallback_response s q
      ∧ generate_hindi_response (some (Except.ok text)) s q = stripStr text :=
  fun _ _ _ _ => ⟨rfl, rfl, rfl⟩

/-- C10: any error-reason other than `no_results` and `invalid_query`
(including `server_error` itself and arbitrary unknown reasons) selects
exactly the fixed `server_error` message, while `no_results` and
`invalid_query` each select their own message, distinct from the
`server_error` message and from each other, for every query string. -/
theorem unknown_error_reason_server_error (q et : Str)
    (h1 : et ≠ no_results_key) (h2 : et ≠ invalid_query_key) :
    generate_error_response q et = server_error_message
    ∧ generate_error_response q no_results_key ≠ server_error_message
    ∧ generate_error_response q invalid_query_key ≠ server_error_message
    ∧ generate_error_response q no_results_key
        ≠ generate_error_response q invalid_query_key := by
  have e1 : generate_error_response q no_results_key = no_results_message q := by
    unfold generate_error_response
    rw [if_pos rfl]
  have e2 : generate_error_response q invalid_query_key = invalid_query_message := by
    unfold generate_error_response
    rw [if_neg (by decide), if_neg (by decide), if_pos rfl]
  have hnr : (no_results_message q).head? = some '\x27' := rfl
  have hse : server_error_message.head? = some 'स' := rfl
  have hiq : invalid_query_message.head? = some 'क' := rfl
  refine ⟨?_, ?_, ?_, ?_⟩
  · unfold generate_error_response
    by_cases hs : et = server_error_key
    · rw [if_neg h1, if_pos hs]
    · rw [if_neg h1, if_neg hs, if_neg h2]
  · rw [e1]
    exact ne_of_headq (by rw [hnr, hse]; decide)
  · rw [e2]
    exact ne_of_headq (by rw [hiq, hse]; decide)
  · rw [e1, e2]
    exact ne_of_headq (by rw [hnr, hiq]; decide)

/-- C10 witness: the theorem instantiated at query `"घर"` and the unknown
reason `"weird"`. -/
theorem unknown_error_reason_server_error_witness :
    (etWeird ≠ no_results_key ∧ etWeird ≠ invalid_query_key)
    ∧ (generate_error_response qGhar etWeird = server_error_message
      ∧ generate_error_response qGhar no_results_key ≠ server_error_message
      ∧ generate_error_response qGhar invalid_query_key ≠ server_error_message
      ∧ generate_error_response qGhar no_results_key
          ≠ generate_error_response qGhar invalid_query_key) :=
  ⟨⟨by decide, by decide⟩,
   unknown_error_reason_server_error qGhar etWeird (by decide) (by decide)⟩

end SwarajyaAI
